import Mathlib

/-!
Shallow embedding of the shade library (src/lib.rs): an X11 root-pixmap
background setter.  The X server interaction is modelled by explicit state
passing: a state carries the trace of issued requests, the id generator
counter, and the property store of the server; the environment fixes the
static behaviour of the server (connection success, screens, atom tables,
which requests succeed).
-/

namespace Shade

/-- Predefined atom id: `ATOM_NONE` (the zero atom). -/
def ATOM_NONE : Nat := 0

/-- Predefined atom id: `ATOM_PIXMAP` (XA_PIXMAP = 20). -/
def ATOM_PIXMAP : Nat := 20

/-- Property change modes of the `ChangeProperty` request.  The source uses
only `Replace`. -/
inductive PropMode where
  | Replace
  | Prepend
  | Append
deriving DecidableEq, Repr

/-- The requests the library sends to the X server, as recorded in the
trace.  Each constructor corresponds to one request issued in src/lib.rs
(plus `connect` for the initial `Connection::connect`). -/
inductive XEvent where
  | connect
  | createPixmap (depth pid width height root : Nat)
  | createGc (cid pid fg bg : Nat)
  | internAtom (name : String) (onlyIfExists : Bool)
  | getProperty (window property : Nat)
  | killClient (resource : Nat)
  | changeProperty (window property : Nat) (mode : PropMode) (ty : Nat) (data : List Nat)
  | changeWindowAttributes (window backPixmap : Nat)
  | setCloseDownMode
  | flushConn
  | putImage (pid gcid width height depth : Nat) (data : List Nat)
deriving DecidableEq, Repr

/-- A property value as stored by the server: its declared type atom, its
format (8, 16 or 32 bits per item) and its raw byte run. -/
structure PropVal where
  ty : Nat
  format : Nat
  bytes : List Nat
deriving DecidableEq, Repr

/-- One screen of the X server setup, with the fields read by the source. -/
structure Screen where
  root : Nat
  widthInPixels : Nat
  heightInPixels : Nat
  rootDepth : Nat
  whitePixel : Nat
  blackPixel : Nat
deriving DecidableEq, Repr

/-- Static behaviour of the X server: whether connecting succeeds, the
screen list and returned screen number, the atom tables for `InternAtom`
with and without `only_if_exists`, and which requests succeed. -/
structure Env where
  connectOk : Bool
  screens : List Screen
  screenNumber : Nat
  internExisting : String → Nat
  internCreate : String → Nat
  reqOk : XEvent → Bool

/-- Mutable world state threaded through the embedding: the trace of
requests issued so far, the resource id generator counter, and the
property store of the server (window, atom ↦ value). -/
structure StX where
  events : List XEvent
  nextId : Nat
  props : Nat → Nat → Option PropVal

/-- The error enum of src/lib.rs.  Note there is no UnsupportedFeature
variant: the enum holds NoScreenFound, FailedRootAtomCreation, the wrapped
xcb error, and the (unused at runtime) wrappers for input-output errors
(named IO in the source) and image errors. -/
inductive Err where
  | NoScreenFound
  | FailedRootAtomCreation
  | XCBInteral (code : Nat)
  | IOError (code : Nat)
  | Image (code : Nat)
deriving DecidableEq, Repr

/-- Result of running a fallible computation: success, a returned error,
or a Rust panic (`unwrap` / `unreachable`). -/
inductive Outcome (α : Type) where
  | ok (a : α)
  | err (e : Err)
  | panicked (msg : String)
deriving DecidableEq, Repr

/-- True iff the outcome is a success. -/
def Outcome.isOk {α : Type} : Outcome α → Bool
  | Outcome.ok _ => true
  | _ => false

/-- True iff the outcome is a panic. -/
def Outcome.isPanicked {α : Type} : Outcome α → Bool
  | Outcome.panicked _ => true
  | _ => false

/-- Sequencing of state-passing fallible computations: `?` in the source.
An error or panic short-circuits, keeping the state reached so far. -/
def obind {α β : Type} (x : Outcome α × StX) (f : α → StX → Outcome β × StX) :
    Outcome β × StX :=
  match x with
  | (Outcome.ok a, st) => f a st
  | (Outcome.err e, st) => (Outcome.err e, st)
  | (Outcome.panicked m, st) => (Outcome.panicked m, st)

/-- Record a request in the trace. -/
def pushEvent (st : StX) (e : XEvent) : StX :=
  { st with events := st.events ++ [e] }

/-- The `void_request!` macro: send a checked request without reply;
the request is issued (recorded) and then either acknowledged or refused
by the server. -/
def voidRequest (env : Env) (e : XEvent) (st : StX) : Outcome Unit × StX :=
  let st1 := pushEvent st e
  if env.reqOk e then (Outcome.ok (), st1) else (Outcome.err (Err.XCBInteral 0), st1)

/-- Embedding of `Connection::connect(None)`. -/
def connectStep (env : Env) (st : StX) : Outcome Unit × StX :=
  let st1 := pushEvent st XEvent.connect
  if env.connectOk then (Outcome.ok (), st1) else (Outcome.err (Err.XCBInteral 0), st1)

/-- Embedding of `connection.generate_id()`. -/
def generateId (st : StX) : Nat × StX :=
  (st.nextId, { st with nextId := st.nextId + 1 })

/-- The `cookie_request!` macro applied to `InternAtom`: round trip
returning the atom for the name (the none atom 0 when `only_if_exists`
is set and the atom was never registered, or when the server refuses
creation). -/
def internRequest (env : Env) (name : String) (onlyIfExists : Bool) (st : StX) :
    Outcome Nat × StX :=
  let ev := XEvent.internAtom name onlyIfExists
  let st1 := pushEvent st ev
  if env.reqOk ev then
    (Outcome.ok (if onlyIfExists then env.internExisting name else env.internCreate name), st1)
  else (Outcome.err (Err.XCBInteral 0), st1)

/-- Update of the property store used by `ChangeProperty` in Replace mode. -/
def setProp (p : Nat → Nat → Option PropVal) (w a : Nat) (v : PropVal) :
    Nat → Nat → Option PropVal :=
  fun w2 a2 => if w2 = w ∧ a2 = a then some v else p w2 a2

/-- The `ChangeProperty` request: recorded, then applied to the property
store when the server accepts it. -/
def changePropertyReq (env : Env) (window atom : Nat) (mode : PropMode)
    (ty : Nat) (format : Nat) (data : List Nat) (st : StX) : Outcome Unit × StX :=
  let ev := XEvent.changeProperty window atom mode ty data
  let st1 := pushEvent st ev
  if env.reqOk ev then
    match mode with
    | PropMode.Replace =>
        (Outcome.ok (), { st1 with props := setProp st1.props window atom ⟨ty, format, data⟩ })
    | PropMode.Prepend =>
        let old := ((st1.props window atom).map PropVal.bytes).getD []
        (Outcome.ok (), { st1 with props := setProp st1.props window atom ⟨ty, format, data ++ old⟩ })
    | PropMode.Append =>
        let old := ((st1.props window atom).map PropVal.bytes).getD []
        (Outcome.ok (), { st1 with props := setProp st1.props window atom ⟨ty, format, old ++ data⟩ })
  else (Outcome.err (Err.XCBInteral 0), st1)

/-- Embedding of `connection.flush()`. -/
def flushStep (env : Env) (st : StX) : Outcome Unit × StX :=
  let st1 := pushEvent st XEvent.flushConn
  if env.reqOk XEvent.flushConn then (Outcome.ok (), st1)
  else (Outcome.err (Err.XCBInteral 0), st1)

/-- A resource id as a 32-bit value (`Xid::resource_id` returns u32). -/
def resourceId (n : Nat) : Nat := n % 4294967296

/-- Little-endian byte run of a 32-bit value, as stored on the wire for a
format-32 property written from a `&[u32]`. -/
def u32Bytes (n : Nat) : List Nat :=
  [n % 256, n / 256 % 256, n / 65536 % 256, n / 16777216 % 256]

/-- Native-endian reinterpretation of a 4-byte run as a 32-bit value
(little-endian host). -/
def u32OfBytes (b : List Nat) : Nat :=
  (b.getD 0 0) + 256 * (b.getD 1 0) + 65536 * (b.getD 2 0) + 16777216 * (b.getD 3 0)

/-- A pixel of the mutable background buffer: three u8 channels, repr(C),
so three bytes per pixel in memory. -/
structure Pixel where
  r : Nat
  g : Nat
  b : Nat
deriving DecidableEq, Repr

/-- Embedding of `Pixel::default()`: all channels zero. -/
def Pixel.default : Pixel := ⟨0, 0, 0⟩

/-- Embedding of `Pixel::new`. -/
def Pixel.new (r g b : Nat) : Pixel := ⟨r, g, b⟩

/-- The in-memory byte run of one repr(C) pixel (fields are u8). -/
def Pixel.byteRun (p : Pixel) : List Nat := [p.r % 256, p.g % 256, p.b % 256]

/-- The `as_byte_slice` reinterpretation of a pixel slice as a raw byte
run: the concatenation of each pixel's three bytes. -/
def asByteSlice : List Pixel → List Nat
  | [] => []
  | p :: rest => p.byteRun ++ asByteSlice rest

/-- Scaling methods of the public API (all unimplemented downstream). -/
inductive ScalingMethod where
  | Center
  | Fill
  | Max
  | Scale
  | Tile
deriving DecidableEq, Repr

/-- The `OpenMethod` enum of the public API. -/
inductive OpenMethod where
  | KeepExisting
  | MakeNew
  | LoadFromFile (scaling : ScalingMethod) (path : String)
deriving DecidableEq, Repr

/-- The `BackgroundHandle` struct: graphics context, pixmap, root window,
geometry, depth, and the mutable pixel buffer (the connection itself lives
in the environment of the embedding). -/
structure BackgroundHandle where
  context : Nat
  background_pixmap : Nat
  root : Nat
  width : Nat
  height : Nat
  depth : Nat
  buffer : List Pixel
deriving DecidableEq, Repr

/-- Embedding of `resolve_atom`: for the none atom, answer None without a round trip;
otherwise fetch the property (`GetProperty` with `long_offset` 0 and
`long_length` 1, so the server returns at most 4 bytes of the value),
treat a non-pixmap type as absent, and decode the value honoring the
three possible formats.  The 16- and 8-bit branches convert the fetched
byte run into a fixed 4-byte array with `try_into().unwrap()`, panicking
when the run is not exactly 4 bytes; an unrecognized format is
`unreachable!()`. -/
def resolve_atom (env : Env) (window atom : Nat) (st : StX) :
    Outcome (Option Nat) × StX :=
  if atom = ATOM_NONE then
    (Outcome.ok none, st)
  else
    let ev := XEvent.getProperty window atom
    let st1 := pushEvent st ev
    if env.reqOk ev then
      let property : PropVal :=
        match st.props window atom with
        | some p => { p with bytes := p.bytes.take 4 }
        | none => ⟨0, 0, []⟩
      if property.ty ≠ ATOM_PIXMAP then
        (Outcome.ok none, st1)
      else
        match property.format with
        | 32 =>
            if 4 ≤ property.bytes.length then
              (Outcome.ok (some (u32OfBytes property.bytes)), st1)
            else (Outcome.panicked "index out of bounds", st1)
        | 16 =>
            let run := property.bytes.take (2 * (property.bytes.length / 2))
            if run.length = 4 then (Outcome.ok (some (u32OfBytes run)), st1)
            else (Outcome.panicked "called Result::unwrap on an Err value", st1)
        | 8 =>
            if property.bytes.length = 4 then
              (Outcome.ok (some (u32OfBytes property.bytes)), st1)
            else (Outcome.panicked "called Result::unwrap on an Err value", st1)
        | _ => (Outcome.panicked "internal error: entered unreachable code", st1)
    else (Outcome.err (Err.XCBInteral 0), st1)

/-- Embedding of `kill_pmap_atoms`: resolve the pixmap ids stored under the two
convention atoms and terminate the current owners, deduplicating when
both atoms reference the same pixmap. -/
def kill_pmap_atoms (env : Env) (root atomXrootPmap atomEsetrootPmap : Nat)
    (st : StX) : Outcome Unit × StX :=
  obind (resolve_atom env root atomXrootPmap st) (fun xrootid st1 =>
  obind (resolve_atom env root atomEsetrootPmap st1) (fun esetrootid st2 =>
  match xrootid, esetrootid with
  | some x, some e =>
      if x = e then
        voidRequest env (XEvent.killClient x) st2
      else
        obind (voidRequest env (XEvent.killClient x) st2) (fun _ st3 =>
        voidRequest env (XEvent.killClient e) st3)
  | some x, none => voidRequest env (XEvent.killClient x) st2
  | none, some e => voidRequest env (XEvent.killClient e) st2
  | none, none => (Outcome.ok (), st2)))

/-- Name of the first convention atom. -/
def nameXrootPmapId : String := "_XROOTPMAP_ID"

/-- Name of the second convention atom. -/
def nameEsetrootPmapId : String := "ESETROOT_PMAP_ID"

set_option linter.unusedVariables false in
/-- Embedding of `inner_load`: the full bootstrap sequence.  Note the `open_method`
parameter is never inspected by the body, exactly as in the source. -/
def inner_load (env : Env) (openMethod : OpenMethod) (st : StX) :
    Outcome BackgroundHandle × StX :=
  obind (connectStep env st) (fun _ stc =>
  match env.screens.get? env.screenNumber with
  | none => (Outcome.err Err.NoScreenFound, stc)
  | some screen =>
    let root := screen.root
    let width := screen.widthInPixels
    let height := screen.heightInPixels
    let depth := screen.rootDepth
    let p := generateId stc
    obind (voidRequest env (XEvent.createPixmap depth p.1 width height root) p.2)
      (fun _ st1 =>
    let c := generateId st1
    obind (voidRequest env
        (XEvent.createGc c.1 p.1 screen.whitePixel screen.blackPixel) c.2)
      (fun _ st2 =>
    obind (internRequest env nameXrootPmapId true st2) (fun atomXroot st3 =>
    obind (internRequest env nameEsetrootPmapId true st3) (fun atomEsetroot st4 =>
    obind (kill_pmap_atoms env root atomXroot atomEsetroot st4) (fun _ st5 =>
    obind (internRequest env nameXrootPmapId false st5) (fun atomXroot2 st6 =>
    obind (internRequest env nameEsetrootPmapId false st6) (fun atomEsetroot2 st7 =>
    if atomXroot2 = ATOM_NONE ∨ atomEsetroot2 = ATOM_NONE then
      (Outcome.err Err.FailedRootAtomCreation, st7)
    else
      obind (changePropertyReq env root atomXroot2 PropMode.Replace ATOM_PIXMAP 32
          (u32Bytes (resourceId p.1)) st7) (fun _ st8 =>
      obind (changePropertyReq env root atomEsetroot2 PropMode.Replace ATOM_PIXMAP 32
          (u32Bytes (resourceId p.1)) st8) (fun _ st9 =>
      obind (voidRequest env (XEvent.changeWindowAttributes root p.1) st9) (fun _ st10 =>
      obind (voidRequest env XEvent.setCloseDownMode st10) (fun _ st11 =>
      obind (flushStep env st11) (fun _ st12 =>
      (Outcome.ok
        { context := c.1
          background_pixmap := p.1
          root := root
          width := width
          height := height
          depth := depth
          buffer := List.replicate (height * width) Pixel.default }, st12))))))))))))))

/-- Embedding of `load`: the public entry point, a lazy singleton through
`OnceCell::get_or_try_init`.  The cell is passed explicitly: a filled
cell answers immediately; an empty cell runs `inner_load`, and the cell
is filled only on success (`get_or_try_init` does not store errors). -/
def load (env : Env) (options : OpenMethod) (cell : Option BackgroundHandle)
    (st : StX) : Outcome BackgroundHandle × (Option BackgroundHandle × StX) :=
  match cell with
  | some h => (Outcome.ok h, (some h, st))
  | none =>
    match inner_load env options st with
    | (Outcome.ok h, st1) => (Outcome.ok h, (some h, st1))
    | (Outcome.err e, st1) => (Outcome.err e, (none, st1))
    | (Outcome.panicked m, st1) => (Outcome.panicked m, (none, st1))

/-- System state after initialization: the process-lifetime handle plus
the world state. -/
structure SysState where
  handle : BackgroundHandle
  x : StX

/-- Embedding of `BackgroundHandle::flush`: lock the buffer (recovering a poisoned
lock), then upload the whole buffer to the pixmap in one `PutImage`
request, reinterpreting the pixel array as a raw byte run. -/
def BackgroundHandle.flush (env : Env) (s : SysState) : Outcome Unit × SysState :=
  let h := s.handle
  let ev := XEvent.putImage h.background_pixmap h.context h.width h.height h.depth
      (asByteSlice h.buffer)
  match voidRequest env ev s.x with
  | (Outcome.ok _, st1) => (Outcome.ok (), { handle := h, x := st1 })
  | (Outcome.err e, st1) => (Outcome.err e, { handle := h, x := st1 })
  | (Outcome.panicked m, st1) => (Outcome.panicked m, { handle := h, x := st1 })

/-! ### Step lemmas: how each request transforms the world state -/

theorem voidRequest_state (env : Env) (e : XEvent) (st : StX) :
    (voidRequest env e st).2 = pushEvent st e := by
  unfold voidRequest
  split <;> rfl

theorem connectStep_state (env : Env) (st : StX) :
    (connectStep env st).2 = pushEvent st XEvent.connect := by
  unfold connectStep
  split <;> rfl

theorem internRequest_state (env : Env) (name : String) (b : Bool) (st : StX) :
    (internRequest env name b st).2 = pushEvent st (XEvent.internAtom name b) := by
  unfold internRequest
  dsimp only
  split <;> rfl

theorem flushStep_state (env : Env) (st : StX) :
    (flushStep env st).2 = pushEvent st XEvent.flushConn := by
  unfold flushStep
  split <;> rfl

theorem pushEvent_props (st : StX) (e : XEvent) : (pushEvent st e).props = st.props := rfl

theorem generateId_props (st : StX) : (generateId st).2.props = st.props := rfl

theorem generateId_events (st : StX) : (generateId st).2.events = st.events := rfl

theorem generateId_nextId (st : StX) : (generateId st).2.nextId = st.nextId + 1 := rfl

theorem pushEvent_nextId (st : StX) (e : XEvent) : (pushEvent st e).nextId = st.nextId := rfl

theorem pushEvent_events (st : StX) (e : XEvent) :
    (pushEvent st e).events = st.events ++ [e] := rfl

theorem changePropertyReq_events (env : Env) (w a : Nat) (mode : PropMode)
    (ty fmt : Nat) (data : List Nat) (st : StX) :
    (changePropertyReq env w a mode ty fmt data st).2.events =
      st.events ++ [XEvent.changeProperty w a mode ty data] := by
  unfold changePropertyReq
  dsimp only
  repeat' split
  all_goals rfl

theorem changePropertyReq_nextId (env : Env) (w a : Nat) (mode : PropMode)
    (ty fmt : Nat) (data : List Nat) (st : StX) :
    (changePropertyReq env w a mode ty fmt data st).2.nextId = st.nextId := by
  unfold changePropertyReq
  dsimp only
  repeat' split
  all_goals rfl

theorem resolve_atom_state (env : Env) (w a : Nat) (st : StX) :
    (resolve_atom env w a st).2 =
      if a = ATOM_NONE then st else pushEvent st (XEvent.getProperty w a) := by
  unfold resolve_atom
  dsimp only
  repeat' split
  all_goals simp_all

theorem resolve_atom_props (env : Env) (w a : Nat) (st : StX) :
    (resolve_atom env w a st).2.props = st.props := by
  rw [resolve_atom_state]
  split <;> rfl

theorem resolve_atom_nextId (env : Env) (w a : Nat) (st : StX) :
    (resolve_atom env w a st).2.nextId = st.nextId := by
  rw [resolve_atom_state]
  split <;> rfl

theorem voidRequest_props (env : Env) (e : XEvent) (st : StX) :
    (voidRequest env e st).2.props = st.props := by
  rw [voidRequest_state]; rfl

theorem voidRequest_nextId (env : Env) (e : XEvent) (st : StX) :
    (voidRequest env e st).2.nextId = st.nextId := by
  rw [voidRequest_state]; rfl

theorem obind_pres {α β : Type} (x : Outcome α × StX)
    (f : α → StX → Outcome β × StX) (P : StX → Prop)
    (hx : P x.2) (hf : ∀ a st1, P st1 → P (f a st1).2) : P (obind x f).2 := by
  rcases x with ⟨o, st1⟩
  cases o with
  | ok a => exact hf a st1 hx
  | err e => exact hx
  | panicked m => exact hx

theorem kill_pmap_atoms_props (env : Env) (root a1 a2 : Nat) (st : StX) :
    (kill_pmap_atoms env root a1 a2 st).2.props = st.props := by
  unfold kill_pmap_atoms
  refine obind_pres _ _ (fun s => s.props = st.props) ?_ ?_
  · exact resolve_atom_props env root a1 st
  · intro xrootid st1 h1
    refine obind_pres _ _ (fun s => s.props = st.props) ?_ ?_
    · dsimp only
      rw [resolve_atom_props]
      exact h1
    · intro esetrootid st2 h2
      rcases xrootid with _ | x <;> rcases esetrootid with _ | e <;> dsimp only
      · exact h2
      · rw [voidRequest_props]
        exact h2
      · rw [voidRequest_props]
        exact h2
      · by_cases hxe : x = e
        · rw [if_pos hxe, voidRequest_props]
          exact h2
        · rw [if_neg hxe]
          refine obind_pres _ _ (fun s => s.props = st.props) ?_ ?_
          · dsimp only
            rw [voidRequest_props]
            exact h2
          · intro u st3 h3
            dsimp only
            rw [voidRequest_props]
            exact h3

theorem kill_pmap_atoms_nextId (env : Env) (root a1 a2 : Nat) (st : StX) :
    (kill_pmap_atoms env root a1 a2 st).2.nextId = st.nextId := by
  unfold kill_pmap_atoms
  refine obind_pres _ _ (fun s => s.nextId = st.nextId) ?_ ?_
  · exact resolve_atom_nextId env root a1 st
  · intro xrootid st1 h1
    refine obind_pres _ _ (fun s => s.nextId = st.nextId) ?_ ?_
    · dsimp only
      rw [resolve_atom_nextId]
      exact h1
    · intro esetrootid st2 h2
      rcases xrootid with _ | x <;> rcases esetrootid with _ | e <;> dsimp only
      · exact h2
      · rw [voidRequest_nextId]
        exact h2
      · rw [voidRequest_nextId]
        exact h2
      · by_cases hxe : x = e
        · rw [if_pos hxe, voidRequest_nextId]
          exact h2
        · rw [if_neg hxe]
          refine obind_pres _ _ (fun s => s.nextId = st.nextId) ?_ ?_
          · dsimp only
            rw [voidRequest_nextId]
            exact h2
          · intro u st3 h3
            dsimp only
            rw [voidRequest_nextId]
            exact h3

/-! ### Phase tags: the position of each request kind in the bootstrap
sequence actually performed by `inner_load` -/

/-- Phase of a request in the bootstrap order of `inner_load`: connect,
pixmap creation, gc creation, atom probing, property reads, owner
eviction, atom creation, property publication, background install,
persistence, final flush; `putImage` (used only by `flush`) comes last. -/
def tagOf : XEvent → Nat
  | XEvent.connect => 0
  | XEvent.createPixmap _ _ _ _ _ => 1
  | XEvent.createGc _ _ _ _ => 2
  | XEvent.internAtom _ true => 3
  | XEvent.getProperty _ _ => 4
  | XEvent.killClient _ => 5
  | XEvent.internAtom _ false => 6
  | XEvent.changeProperty _ _ _ _ _ => 7
  | XEvent.changeWindowAttributes _ _ => 8
  | XEvent.setCloseDownMode => 9
  | XEvent.flushConn => 10
  | XEvent.putImage _ _ _ _ _ _ => 11

/-- The canonical phase sequence of one `inner_load` attempt: connect,
create pixmap, create gc, probe both atoms, read both properties, up to
two evictions, create both atoms, publish both properties, install the
background, set the close-down mode, flush. -/
def phaseTags : List Nat := [0, 1, 2, 3, 3, 4, 4, 5, 5, 6, 6, 7, 7, 8, 9, 10]

/-- The events a computation appended to the trace between two states,
with their phase tags forming a sublist of `P`. -/
def TA (st st2 : StX) (P : List Nat) : Prop :=
  ∃ tl, st2.events = st.events ++ tl ∧ List.Sublist (tl.map tagOf) P

theorem TA_refl (st : StX) (P : List Nat) : TA st st P :=
  ⟨[], by simp⟩

theorem TA_mono {st st2 : StX} {P Q : List Nat} (h : TA st st2 P)
    (hPQ : List.Sublist P Q) :
    TA st st2 Q := by
  rcases h with ⟨tl, he, hs⟩
  exact ⟨tl, he, hs.trans hPQ⟩

theorem TA_trans {st st1 st2 : StX} {P Q : List Nat}
    (h1 : TA st st1 P) (h2 : TA st1 st2 Q) : TA st st2 (P ++ Q) := by
  rcases h1 with ⟨tl1, he1, hs1⟩
  rcases h2 with ⟨tl2, he2, hs2⟩
  exact ⟨tl1 ++ tl2, by rw [he2, he1, List.append_assoc],
    by rw [List.map_append]; exact hs1.append hs2⟩

theorem TA_congr {st st0 st2 : StX} {P : List Nat}
    (he : st0.events = st.events) (h : TA st st2 P) : TA st0 st2 P := by
  rcases h with ⟨tl, he2, hs⟩
  exact ⟨tl, by rw [he2, he], hs⟩

theorem TA_obind {α β : Type} {st : StX} {x : Outcome α × StX}
    {f : α → StX → Outcome β × StX} {P Q : List Nat}
    (hx : TA st x.2 P) (hf : ∀ a, TA x.2 (f a x.2).2 Q) :
    TA st (obind x f).2 (P ++ Q) := by
  rcases x with ⟨o, st1⟩
  cases o with
  | ok a => exact TA_trans hx (hf a)
  | err e => exact TA_mono hx (List.sublist_append_left P Q)
  | panicked m => exact TA_mono hx (List.sublist_append_left P Q)

theorem TA_pushEvent (st : StX) (e : XEvent) : TA st (pushEvent st e) [tagOf e] :=
  ⟨[e], rfl, List.Sublist.refl _⟩

theorem TA_voidRequest (env : Env) (e : XEvent) (st : StX) :
    TA st (voidRequest env e st).2 [tagOf e] := by
  rw [voidRequest_state]
  exact TA_pushEvent st e

theorem TA_connectStep (env : Env) (st : StX) : TA st (connectStep env st).2 [0] := by
  rw [connectStep_state]
  exact TA_pushEvent st XEvent.connect

theorem TA_internRequest (env : Env) (n : String) (b : Bool) (st : StX) :
    TA st (internRequest env n b st).2 [tagOf (XEvent.internAtom n b)] := by
  rw [internRequest_state]
  exact TA_pushEvent st _

theorem TA_flushStep (env : Env) (st : StX) : TA st (flushStep env st).2 [10] := by
  rw [flushStep_state]
  exact TA_pushEvent st XEvent.flushConn

theorem TA_changePropertyReq (env : Env) (w a : Nat) (mode : PropMode)
    (ty fmt : Nat) (data : List Nat) (st : StX) :
    TA st (changePropertyReq env w a mode ty fmt data st).2 [7] :=
  ⟨[XEvent.changeProperty w a mode ty data], changePropertyReq_events env w a mode ty fmt data st,
    List.Sublist.refl _⟩

theorem TA_resolve_atom (env : Env) (w a : Nat) (st : StX) :
    TA st (resolve_atom env w a st).2 [4] := by
  rw [resolve_atom_state]
  split
  · exact TA_refl st _
  · exact TA_pushEvent st _

theorem TA_kill_pmap_atoms (env : Env) (root a1 a2 : Nat) (st : StX) :
    TA st (kill_pmap_atoms env root a1 a2 st).2 [4, 4, 5, 5] := by
  unfold kill_pmap_atoms
  refine TA_mono (TA_obind (Q := [4] ++ [5, 5]) (TA_resolve_atom env root a1 st) ?_)
    (by decide)
  intro xrootid
  refine TA_obind (TA_resolve_atom env root a2 _) ?_
  intro esetrootid
  rcases xrootid with _ | x <;> rcases esetrootid with _ | e <;> dsimp only
  · exact TA_refl _ _
  · exact TA_mono (TA_voidRequest env _ _) (by exact (by decide : List.Sublist [5] [5, 5]))
  · exact TA_mono (TA_voidRequest env _ _) (by exact (by decide : List.Sublist [5] [5, 5]))
  · split
    · exact TA_mono (TA_voidRequest env _ _) (by exact (by decide : List.Sublist [5] [5, 5]))
    · refine TA_mono (TA_obind (Q := [5]) (TA_voidRequest env _ _) ?_)
        (by exact (by decide : List.Sublist [5, 5] [5, 5]))
      intro u
      exact TA_voidRequest env _ _

/-- Trace shape of one `inner_load` attempt: whatever the environment
does, the requests appended to the trace follow the canonical phase order
(a sublist of `phaseTags`); in particular no step is retried and an error
cuts the sequence short. -/
theorem inner_load_trace (env : Env) (m : OpenMethod) (st : StX) :
    TA st (inner_load env m st).2 phaseTags := by
  unfold inner_load
  show TA st _ ([0] ++ [1, 2, 3, 3, 4, 4, 5, 5, 6, 6, 7, 7, 8, 9, 10])
  refine TA_obind (TA_connectStep env st) ?_
  intro u1
  dsimp only
  cases hs : env.screens.get? env.screenNumber with
  | none => exact TA_refl _ _
  | some screen =>
    dsimp only
    show TA _ _ ([1] ++ [2, 3, 3, 4, 4, 5, 5, 6, 6, 7, 7, 8, 9, 10])
    refine TA_obind (TA_congr rfl (TA_voidRequest env _ _)) ?_
    intro u2
    dsimp only
    show TA _ _ ([2] ++ [3, 3, 4, 4, 5, 5, 6, 6, 7, 7, 8, 9, 10])
    refine TA_obind (TA_congr rfl (TA_voidRequest env _ _)) ?_
    intro u3
    dsimp only
    show TA _ _ ([3] ++ [3, 4, 4, 5, 5, 6, 6, 7, 7, 8, 9, 10])
    refine TA_obind (TA_internRequest env _ _ _) ?_
    intro a1
    dsimp only
    show TA _ _ ([3] ++ [4, 4, 5, 5, 6, 6, 7, 7, 8, 9, 10])
    refine TA_obind (TA_internRequest env _ _ _) ?_
    intro a2
    dsimp only
    show TA _ _ ([4, 4, 5, 5] ++ [6, 6, 7, 7, 8, 9, 10])
    refine TA_obind (TA_kill_pmap_atoms env _ _ _ _) ?_
    intro u4
    dsimp only
    show TA _ _ ([6] ++ [6, 7, 7, 8, 9, 10])
    refine TA_obind (TA_internRequest env _ _ _) ?_
    intro a3
    dsimp only
    show TA _ _ ([6] ++ [7, 7, 8, 9, 10])
    refine TA_obind (TA_internRequest env _ _ _) ?_
    intro a4
    dsimp only
    split
    · exact TA_refl _ _
    · show TA _ _ ([7] ++ [7, 8, 9, 10])
      refine TA_obind (TA_changePropertyReq env _ _ _ _ _ _ _) ?_
      intro u5
      dsimp only
      show TA _ _ ([7] ++ [8, 9, 10])
      refine TA_obind (TA_changePropertyReq env _ _ _ _ _ _ _) ?_
      intro u6
      dsimp only
      show TA _ _ ([8] ++ [9, 10])
      refine TA_obind (TA_voidRequest env _ _) ?_
      intro u7
      dsimp only
      show TA _ _ ([9] ++ [10])
      refine TA_obind (TA_voidRequest env _ _) ?_
      intro u8
      dsimp only
      show TA _ _ ([10] ++ [])
      refine TA_obind (TA_flushStep env _) ?_
      intro u9
      exact TA_refl _ _

/-! ### Success inversion -/

theorem voidRequest_ok {env : Env} {e : XEvent} {st : StX} {u : Unit} {st1 : StX}
    (h : voidRequest env e st = (Outcome.ok u, st1)) :
    st1 = pushEvent st e ∧ env.reqOk e = true := by
  unfold voidRequest at h
  dsimp only at h
  split at h
  · injection h with h1 h2
    exact ⟨h2.symm, by assumption⟩
  · exact Outcome.noConfusion (congrArg Prod.fst h)

theorem connectStep_ok {env : Env} {st : StX} {u : Unit} {st1 : StX}
    (h : connectStep env st = (Outcome.ok u, st1)) :
    st1 = pushEvent st XEvent.connect ∧ env.connectOk = true := by
  unfold connectStep at h
  dsimp only at h
  split at h
  · injection h with h1 h2
    exact ⟨h2.symm, by assumption⟩
  · exact Outcome.noConfusion (congrArg Prod.fst h)

theorem internRequest_ok {env : Env} {n : String} {b : Bool} {st : StX}
    {a : Nat} {st1 : StX} (h : internRequest env n b st = (Outcome.ok a, st1)) :
    a = (if b then env.internExisting n else env.internCreate n) ∧
      st1 = pushEvent st (XEvent.internAtom n b) ∧
      env.reqOk (XEvent.internAtom n b) = true := by
  unfold internRequest at h
  dsimp only at h
  split at h
  · injection h with h1 h2
    injection h1 with h1
    exact ⟨h1.symm, h2.symm, by assumption⟩
  · exact Outcome.noConfusion (congrArg Prod.fst h)

theorem flushStep_ok {env : Env} {st : StX} {u : Unit} {st1 : StX}
    (h : flushStep env st = (Outcome.ok u, st1)) :
    st1 = pushEvent st XEvent.flushConn := by
  unfold flushStep at h
  dsimp only at h
  split at h
  · injection h with h1 h2
    exact h2.symm
  · exact Outcome.noConfusion (congrArg Prod.fst h)

theorem changePropertyReq_ok {env : Env} {w a ty fmt : Nat} {data : List Nat}
    {st : StX} {u : Unit} {st1 : StX}
    (h : changePropertyReq env w a PropMode.Replace ty fmt data st = (Outcome.ok u, st1)) :
    st1.props = setProp st.props w a ⟨ty, fmt, data⟩ ∧
      st1.events = st.events ++ [XEvent.changeProperty w a PropMode.Replace ty data] ∧
      st1.nextId = st.nextId := by
  unfold changePropertyReq at h
  dsimp only at h
  split at h
  · injection h with h1 h2
    refine ⟨?_, ?_, ?_⟩ <;> rw [← h2] <;> rfl
  · exact Outcome.noConfusion (congrArg Prod.fst h)

/-- Event traces only grow: the trace of the state reached by
`kill_pmap_atoms` extends the trace of the starting state. -/
theorem kill_pmap_atoms_events_extend (env : Env) (root a1 a2 : Nat) (st : StX) :
    ∃ tl, (kill_pmap_atoms env root a1 a2 st).2.events = st.events ++ tl := by
  rcases TA_kill_pmap_atoms env root a1 a2 st with ⟨tl, he, hs⟩
  exact ⟨tl, he⟩

/-- Inversion of a successful `inner_load` run: the environment offered a
screen, the handle is built from that screen's geometry with the two ids
drawn from the generator, both convention atoms were forced into
existence, the final property store holds the published pixmap id under
both atoms, and the two Replace-mode publication events are in the
trace. -/
theorem inner_load_ok_inv {env : Env} {m : OpenMethod} {st : StX}
    {h : BackgroundHandle} {st2 : StX}
    (H : inner_load env m st = (Outcome.ok h, st2)) :
    ∃ screen, env.screens.get? env.screenNumber = some screen ∧
      h.root = screen.root ∧
      h.width = screen.widthInPixels ∧
      h.height = screen.heightInPixels ∧
      h.depth = screen.rootDepth ∧
      h.background_pixmap = st.nextId ∧
      h.context = st.nextId + 1 ∧
      h.buffer = List.replicate (screen.heightInPixels * screen.widthInPixels) Pixel.default ∧
      env.internCreate nameXrootPmapId ≠ ATOM_NONE ∧
      env.internCreate nameEsetrootPmapId ≠ ATOM_NONE ∧
      st2.props = setProp
        (setProp st.props screen.root (env.internCreate nameXrootPmapId)
          ⟨ATOM_PIXMAP, 32, u32Bytes (resourceId st.nextId)⟩)
        screen.root (env.internCreate nameEsetrootPmapId)
        ⟨ATOM_PIXMAP, 32, u32Bytes (resourceId st.nextId)⟩ ∧
      XEvent.changeProperty screen.root (env.internCreate nameXrootPmapId)
        PropMode.Replace ATOM_PIXMAP (u32Bytes (resourceId st.nextId)) ∈ st2.events ∧
      XEvent.changeProperty screen.root (env.internCreate nameEsetrootPmapId)
        PropMode.Replace ATOM_PIXMAP (u32Bytes (resourceId st.nextId)) ∈ st2.events := by
  unfold inner_load at H
  unfold obind at H
  split at H <;> try exact Outcome.noConfusion (congrArg Prod.fst H)
  beta_reduce at H
  rename_i x1 u1 stc hconn
  split at H <;> try exact Outcome.noConfusion (congrArg Prod.fst H)
  dsimp only at H
  rename_i x2 screen hscr
  split at H <;> try exact Outcome.noConfusion (congrArg Prod.fst H)
  rename_i x3 u2 st1 hpix
  split at H <;> try exact Outcome.noConfusion (congrArg Prod.fst H)
  rename_i x4 u3 stg hgc
  split at H <;> try exact Outcome.noConfusion (congrArg Prod.fst H)
  rename_i x5 a1 st3 hi1
  split at H <;> try exact Outcome.noConfusion (congrArg Prod.fst H)
  rename_i x6 a2 st4 hi2
  split at H <;> try exact Outcome.noConfusion (congrArg Prod.fst H)
  rename_i x7 u4 st5 hkill
  split at H <;> try exact Outcome.noConfusion (congrArg Prod.fst H)
  rename_i x8 a3 st6 hi3
  split at H <;> try exact Outcome.noConfusion (congrArg Prod.fst H)
  rename_i x9 a4 st7 hi4
  split at H <;> try exact Outcome.noConfusion (congrArg Prod.fst H)
  rename_i hatoms
  split at H <;> try exact Outcome.noConfusion (congrArg Prod.fst H)
  rename_i x10 u5 st8 hcp1
  split at H <;> try exact Outcome.noConfusion (congrArg Prod.fst H)
  rename_i x11 u6 st9 hcp2
  split at H <;> try exact Outcome.noConfusion (congrArg Prod.fst H)
  rename_i x12 u7 st10 hcwa
  split at H <;> try exact Outcome.noConfusion (congrArg Prod.fst H)
  rename_i x13 u8 st11 hscd
  split at H <;> try exact Outcome.noConfusion (congrArg Prod.fst H)
  rename_i x14 u9 st12 hfl
  injection H with H1 H2
  injection H1 with H1
  subst H2
  refine ⟨screen, hscr, ?_⟩
  obtain ⟨hstc, _⟩ := connectStep_ok hconn
  obtain ⟨hst1, _⟩ := voidRequest_ok hpix
  obtain ⟨hstg, _⟩ := voidRequest_ok hgc
  obtain ⟨ha1, hst3, _⟩ := internRequest_ok hi1
  obtain ⟨ha2, hst4, _⟩ := internRequest_ok hi2
  obtain ⟨ha3, hst6, _⟩ := internRequest_ok hi3
  obtain ⟨ha4, hst7, _⟩ := internRequest_ok hi4
  obtain ⟨hp8, he8, hn8⟩ := changePropertyReq_ok hcp1
  obtain ⟨hp9, he9, hn9⟩ := changePropertyReq_ok hcp2
  obtain ⟨hst10, _⟩ := voidRequest_ok hcwa
  obtain ⟨hst11, _⟩ := voidRequest_ok hscd
  have hst12 := flushStep_ok hfl
  -- the generated ids
  have hnc : stc.nextId = st.nextId := by rw [hstc]; rfl
  have hn1 : st1.nextId = st.nextId + 1 := by
    rw [hst1, pushEvent_nextId, generateId_nextId, hnc]
  -- the atoms forced into existence
  simp at ha3 ha4
  rw [not_or] at hatoms
  -- the property store of the final state
  have hp5 := kill_pmap_atoms_props env screen.root a1 a2 st4
  rw [hkill] at hp5
  dsimp only at hp5
  have hprops4 : st4.props = st.props := by
    rw [hst4, pushEvent_props, hst3, pushEvent_props, hstg, pushEvent_props,
      generateId_props, hst1, pushEvent_props, generateId_props, hstc, pushEvent_props]
  have hprops7 : st7.props = st.props := by
    rw [hst7, pushEvent_props, hst6, pushEvent_props, hp5, hprops4]
  have hpix1 : (generateId stc).1 = st.nextId := by
    show stc.nextId = st.nextId
    exact hnc
  have hgc1 : (generateId st1).1 = st.nextId + 1 := by
    show st1.nextId = st.nextId + 1
    exact hn1
  -- handle fields
  have hh := H1.symm
  subst hh
  rw [hpix1] at hp8 he8 he9 hp9
  refine ⟨rfl, rfl, rfl, rfl, hpix1, hgc1, rfl, ?_, ?_, ?_, ?_, ?_⟩
  · rw [← ha3]; exact hatoms.1
  · rw [← ha4]; exact hatoms.2
  · rw [hst12, pushEvent_props, hst11, pushEvent_props, hst10, pushEvent_props,
      hp9, hp8, hprops7, ha3, ha4]
  · rw [hst12, pushEvent_events, hst11, pushEvent_events, hst10, pushEvent_events, he9, he8,
      ha3]
    simp
  · rw [hst12, pushEvent_events, hst11, pushEvent_events, hst10, pushEvent_events, he9,
      ha4]
    simp

/-! ### Event classification helpers -/

/-- True for `KillClient` requests. -/
def isKillClient : XEvent → Bool
  | XEvent.killClient _ => true
  | _ => false

/-- True for `ChangeProperty` requests. -/
def isChangeProperty : XEvent → Bool
  | XEvent.changeProperty _ _ _ _ _ => true
  | _ => false

/-- True for `PutImage` requests. -/
def isPutImage : XEvent → Bool
  | XEvent.putImage _ _ _ _ _ _ => true
  | _ => false

/-- True for `GetProperty` requests. -/
def isGetProperty : XEvent → Bool
  | XEvent.getProperty _ _ => true
  | _ => false

/-- True for `CreatePixmap` requests. -/
def isCreatePixmap : XEvent → Bool
  | XEvent.createPixmap _ _ _ _ _ => true
  | _ => false

/-- True for `InternAtom` requests. -/
def isInternAtom : XEvent → Bool
  | XEvent.internAtom _ _ => true
  | _ => false

/-- Number of `KillClient` requests in a trace. -/
def killCount (l : List XEvent) : Nat := l.countP isKillClient

/-- Number of `ChangeProperty` requests in a trace. -/
def changePropCount (l : List XEvent) : Nat := l.countP isChangeProperty

/-! ### Concrete test fixtures -/

/-- A small test screen: root window 7, 4 x 3 pixels, depth 24. -/
def testScreen : Screen := ⟨7, 4, 3, 24, 16777215, 0⟩

/-- A healthy server: connecting succeeds, one screen, both convention
atoms resolvable and creatable (ids 101 and 102), every request
accepted. -/
def goodEnv : Env :=
  { connectOk := true
    screens := [testScreen]
    screenNumber := 0
    internExisting := fun n =>
      if n = nameXrootPmapId then 101 else if n = nameEsetrootPmapId then 102 else 0
    internCreate := fun n =>
      if n = nameXrootPmapId then 101 else if n = nameEsetrootPmapId then 102 else 0
    reqOk := fun _ => true }

/-- A server that refuses the initial connection. -/
def badEnv : Env := { goodEnv with connectOk := false }

/-- Empty property store. -/
def propsEmpty : Nat → Nat → Option PropVal := fun _ _ => none

/-- Property store in which both convention atoms on root window 7 hold
pixmap id 77 (an existing owner). -/
def propsExisting : Nat → Nat → Option PropVal := fun w a =>
  if w = 7 ∧ (a = 101 ∨ a = 102) then some ⟨ATOM_PIXMAP, 32, u32Bytes 77⟩ else none

/-- Fresh starting state: empty trace, id generator at 1, no properties. -/
def st0 : StX := ⟨[], 1, propsEmpty⟩

/-- Starting state with an existing owned pixmap 77 under both atoms. -/
def stExisting : StX := ⟨[], 1, propsExisting⟩

/-- A placeholder handle used to exercise the filled-cell path of `load`. -/
def dummyHandle : BackgroundHandle := ⟨0, 0, 0, 0, 0, 0, []⟩

/-! ### Claim theorems -/

/-- C1: the claim says `load` with `LoadFromFile` always returns the
UnsupportedFeature error and never a successful handle.  The code has no
UnsupportedFeature variant and `inner_load` never reads its open-method
argument: loading from a file behaves exactly like `MakeNew` and, on a
healthy server, returns a successful handle. -/
theorem C1_loadFromFile_performs_normal_load :
    (∀ (env : Env) (m1 m2 : OpenMethod) (st : StX),
      inner_load env m1 st = inner_load env m2 st) ∧
    (load goodEnv (OpenMethod.LoadFromFile ScalingMethod.Center "/no/such/file.png")
      none st0).1.isOk = true ∧
    (load goodEnv (OpenMethod.LoadFromFile ScalingMethod.Center "/no/such/file.png")
        none st0).1 =
      (load goodEnv OpenMethod.MakeNew none st0).1 :=
  ⟨fun _ _ _ _ => rfl, by decide, by decide⟩

/-- C3: the claim says `load` with `KeepExisting` fetches the full image
of a discovered owned pixmap and re-uploads it into the new pixmap before
terminating the old owner.  With pixmap 77 owned under both convention
atoms, the run terminates owner 77 but issues no image upload at all (and
the code contains no image fetch request): no migration happens. -/
theorem C3_keepExisting_no_migration :
    (load goodEnv OpenMethod.KeepExisting none stExisting).1.isOk = true ∧
    XEvent.killClient 77 ∈ (load goodEnv OpenMethod.KeepExisting none stExisting).2.2.events ∧
    ((load goodEnv OpenMethod.KeepExisting none stExisting).2.2.events.countP isPutImage) = 0 ∧
    (load goodEnv OpenMethod.KeepExisting none stExisting).2.2.events =
      (load goodEnv OpenMethod.MakeNew none stExisting).2.2.events := by
  refine ⟨by decide, by decide, by decide, rfl⟩

/-- C2 counterexample: the claim says the first `load` outcome — handle
or error — is cached and replayed without re-running side effects.  With
a server that refuses connections, the first call errors, the cell stays
empty, and a second call re-issues the connection attempt (the trace
grows from one to two events), so the error outcome is neither cached nor
replayed without side effects. -/
theorem C2_counterexample :
    (load badEnv OpenMethod.MakeNew none st0).1 = Outcome.err (Err.XCBInteral 0) ∧
    (load badEnv OpenMethod.MakeNew none st0).2.1 = none ∧
    (load badEnv OpenMethod.MakeNew none st0).2.2.events.length = 1 ∧
    (load badEnv OpenMethod.MakeNew none
      (load badEnv OpenMethod.MakeNew none st0).2.2).2.2.events.length = 2 := by
  refine ⟨by decide, by decide, by decide, by decide⟩

/-- With an empty cell, `load` returns exactly the outcome of running
`inner_load` now. -/
theorem load_fst (env : Env) (m : OpenMethod) (st : StX) :
    (load env m none st).1 = (inner_load env m st).1 := by
  unfold load
  rcases hr : inner_load env m st with ⟨o, st1⟩
  cases o <;> rfl

/-- C2 amended: a cached handle is replayed with no further side effects;
a successful first run caches its handle; but a failed run leaves the
cell empty, and the next call runs the bootstrap again. -/
theorem C2_amended (env : Env) (m : OpenMethod) (st : StX) (h : BackgroundHandle) :
    (load env m (some h) st = (Outcome.ok h, some h, st)) ∧
    ((load env m none st).2.1 =
      match (inner_load env m st).1 with
      | Outcome.ok hh => some hh
      | _ => none) ∧
    ((load env m none st).2.1 = none →
      (load env m none ((load env m none st).2.2)).1 =
        (inner_load env m ((load env m none st).2.2)).1) := by
  refine ⟨rfl, ?_, ?_⟩
  · unfold load
    rcases hr : inner_load env m st with ⟨o, st1⟩
    cases o <;> rfl
  · intro hnone
    exact load_fst env m _

/-- Witness for the C2 amended theorem at the refusing server. -/
theorem C2_amended_witness :
    (load badEnv OpenMethod.MakeNew (some dummyHandle) st0 =
      (Outcome.ok dummyHandle, some dummyHandle, st0)) ∧
    ((load badEnv OpenMethod.MakeNew none st0).2.1 =
      match (inner_load badEnv OpenMethod.MakeNew st0).1 with
      | Outcome.ok hh => some hh
      | _ => none) ∧
    ((load badEnv OpenMethod.MakeNew none
        ((load badEnv OpenMethod.MakeNew none st0).2.2)).1 =
      (inner_load badEnv OpenMethod.MakeNew
        ((load badEnv OpenMethod.MakeNew none st0).2.2)).1) :=
  ⟨(C2_amended badEnv OpenMethod.MakeNew st0 dummyHandle).1,
   (C2_amended badEnv OpenMethod.MakeNew st0 dummyHandle).2.1,
   (C2_amended badEnv OpenMethod.MakeNew st0 dummyHandle).2.2 (by decide)⟩

/-- Shared fact: `flush` leaves the handle (including the pixel buffer)
and the property store untouched and appends exactly one `PutImage`
request carrying the byte run of the buffer. -/
theorem flush_state (env : Env) (s : SysState) :
    (BackgroundHandle.flush env s).2.handle = s.handle ∧
    (BackgroundHandle.flush env s).2.x.events =
      s.x.events ++ [XEvent.putImage s.handle.background_pixmap s.handle.context
        s.handle.width s.handle.height s.handle.depth (asByteSlice s.handle.buffer)] ∧
    (BackgroundHandle.flush env s).2.x.props = s.x.props := by
  unfold BackgroundHandle.flush
  dsimp only
  split <;> rename_i heq <;>
    [skip; skip; skip] <;>
    {
      have h2 := voidRequest_state env (XEvent.putImage s.handle.background_pixmap
        s.handle.context s.handle.width s.handle.height s.handle.depth
        (asByteSlice s.handle.buffer)) s.x
      rw [heq] at h2
      dsimp only at h2
      exact ⟨rfl, by rw [h2]; rfl, by rw [h2]; rfl⟩
    }

/-- C10: `flush` never modifies the handle — whether the upload request
is acknowledged or refused, the pixel buffer and every other handle field
are unchanged; the only effect is sending one `PutImage` request carrying
the buffer byte run, and the server property store is untouched. -/
theorem C10_flush_read_only (env : Env) (s : SysState) :
    (BackgroundHandle.flush env s).2.handle = s.handle ∧
    (BackgroundHandle.flush env s).2.x.events =
      s.x.events ++ [XEvent.putImage s.handle.background_pixmap s.handle.context
        s.handle.width s.handle.height s.handle.depth (asByteSlice s.handle.buffer)] ∧
    (BackgroundHandle.flush env s).2.x.props = s.x.props :=
  flush_state env s

/-- C6 counterexample: the claim says the convention atoms are probed and
the previous owners evicted before the new pixmap is created.  On a
healthy server with an existing owner, the successful run creates the
pixmap at trace position 1, while the first atom probe, property read and
eviction happen at positions 3, 5 and 7 — after the pixmap creation. -/
theorem C6_counterexample :
    (inner_load goodEnv OpenMethod.MakeNew stExisting).1.isOk = true ∧
    (inner_load goodEnv OpenMethod.MakeNew stExisting).2.events.findIdx isCreatePixmap = 1 ∧
    (inner_load goodEnv OpenMethod.MakeNew stExisting).2.events.findIdx isInternAtom = 3 ∧
    (inner_load goodEnv OpenMethod.MakeNew stExisting).2.events.findIdx isGetProperty = 5 ∧
    (inner_load goodEnv OpenMethod.MakeNew stExisting).2.events.findIdx isKillClient = 7 := by
  refine ⟨by decide, by decide, by decide, by decide, by decide⟩

/-- C6 amended: every initialization attempt follows the order connect,
pixmap creation, gc creation, atom probing, property reads, eviction,
atom creation, property publication, background install, persistence,
flush — the phase tags of the appended trace always form a sublist of the
canonical phase sequence, so atoms are probed and owners evicted after
the pixmap exists but before the properties are published, each step runs
at most its canonical number of times (no inter-state retry), and an
error cuts the sequence short. -/
theorem C6_amended (env : Env) (m : OpenMethod) (st : StX) :
    TA st (inner_load env m st).2 phaseTags :=
  inner_load_trace env m st

/-- Concatenating pixel byte runs yields three bytes per pixel. -/
theorem asByteSlice_length (l : List Pixel) :
    (asByteSlice l).length = 3 * l.length := by
  induction l with
  | nil => rfl
  | cons p rest ih =>
      show (p.byteRun ++ asByteSlice rest).length = 3 * (rest.length + 1)
      rw [List.length_append, ih]
      show 3 + 3 * rest.length = 3 * (rest.length + 1)
      ring

/-- C8: the buffer of a freshly loaded handle serializes to exactly
width x height x 3 bytes (three bytes per repr(C) pixel), and `flush` —
the only library operation touching the handle afterwards — preserves the
buffer and hence the invariant. -/
theorem C8_buffer_length (env : Env) (m : OpenMethod) (st : StX)
    (h : BackgroundHandle) (env2 : Env) (s : SysState)
    (H : (inner_load env m st).1 = Outcome.ok h) (hs : s.handle = h) :
    (asByteSlice h.buffer).length = h.width * h.height * 3 ∧
    (asByteSlice ((BackgroundHandle.flush env2 s).2.handle.buffer)).length =
      h.width * h.height * 3 := by
  have Hp : inner_load env m st = (Outcome.ok h, (inner_load env m st).2) := by
    rw [← H]
  obtain ⟨screen, hscr, hroot, hw, hh, hd, hpid, hcid, hbuf, hrest⟩ := inner_load_ok_inv Hp
  have hlen : (asByteSlice h.buffer).length = h.width * h.height * 3 := by
    rw [hbuf, asByteSlice_length, List.length_replicate, hw, hh]
    ring
  refine ⟨hlen, ?_⟩
  rw [(flush_state env2 s).1, hs, hlen]

/-- The concrete handle produced by a successful load on the healthy
server from the fresh state. -/
def goodHandle : BackgroundHandle := ⟨2, 1, 7, 4, 3, 24, List.replicate 12 Pixel.default⟩

/-- Witness for C8 at the healthy server, with `flush` exercised on a
system state carrying the freshly loaded handle. -/
theorem C8_buffer_length_witness :
    ((inner_load goodEnv OpenMethod.MakeNew st0).1 = Outcome.ok goodHandle) ∧
    ((asByteSlice goodHandle.buffer).length = goodHandle.width * goodHandle.height * 3 ∧
      (asByteSlice ((BackgroundHandle.flush goodEnv
          (SysState.mk goodHandle st0)).2.handle.buffer)).length =
        goodHandle.width * goodHandle.height * 3) :=
  ⟨by decide, C8_buffer_length goodEnv OpenMethod.MakeNew st0 goodHandle goodEnv
    (SysState.mk goodHandle st0) (by decide) rfl⟩

/-- Reinterpreting the byte run written from a 32-bit value recovers the
value modulo 2^32. -/
theorem u32_roundtrip (n : Nat) : u32OfBytes (u32Bytes n) = n % 4294967296 := by
  show n % 256 + 256 * (n / 256 % 256) + 65536 * (n / 65536 % 256) +
    16777216 * (n / 16777216 % 256) = n % 4294967296
  omega

/-- Running `resolve_atom` on a real atom whose property holds one 32-bit pixmap
value answers that value. -/
theorem resolve_atom_reads_pixmap (env : Env) (w a n : Nat) (st : StX)
    (ha : a ≠ ATOM_NONE)
    (hreq : env.reqOk (XEvent.getProperty w a) = true)
    (hpa : st.props w a = some ⟨ATOM_PIXMAP, 32, u32Bytes n⟩) :
    (resolve_atom env w a st).1 = Outcome.ok (some (n % 4294967296)) := by
  unfold resolve_atom
  rw [if_neg ha]
  dsimp only
  rw [hreq, hpa]
  dsimp only
  rw [if_pos rfl, if_neg (by simp), if_pos (by simp [u32Bytes])]
  dsimp only
  have ht : List.take 4 (u32Bytes n) = u32Bytes n := rfl
  rw [ht, u32_roundtrip]

/-- C4: after a successful load, both convention atoms on the root window
hold exactly the freshly created pixmap's 32-bit resource id, each was
written by a Replace-mode `ChangeProperty` request carrying that single
value, and reading either atom back through `resolve_atom` yields that
id. -/
theorem C4_publish_both_atoms (env : Env) (m : OpenMethod) (st : StX)
    (h : BackgroundHandle)
    (H : (inner_load env m st).1 = Outcome.ok h)
    (Hr : ∀ w a, env.reqOk (XEvent.getProperty w a) = true) :
    (inner_load env m st).2.props h.root (env.internCreate nameXrootPmapId) =
      some ⟨ATOM_PIXMAP, 32, u32Bytes (resourceId h.background_pixmap)⟩ ∧
    (inner_load env m st).2.props h.root (env.internCreate nameEsetrootPmapId) =
      some ⟨ATOM_PIXMAP, 32, u32Bytes (resourceId h.background_pixmap)⟩ ∧
    XEvent.changeProperty h.root (env.internCreate nameXrootPmapId) PropMode.Replace
      ATOM_PIXMAP (u32Bytes (resourceId h.background_pixmap)) ∈
        (inner_load env m st).2.events ∧
    XEvent.changeProperty h.root (env.internCreate nameEsetrootPmapId) PropMode.Replace
      ATOM_PIXMAP (u32Bytes (resourceId h.background_pixmap)) ∈
        (inner_load env m st).2.events ∧
    (resolve_atom env h.root (env.internCreate nameXrootPmapId)
      (inner_load env m st).2).1 = Outcome.ok (some (resourceId h.background_pixmap)) ∧
    (resolve_atom env h.root (env.internCreate nameEsetrootPmapId)
      (inner_load env m st).2).1 = Outcome.ok (some (resourceId h.background_pixmap)) := by
  have Hp : inner_load env m st = (Outcome.ok h, (inner_load env m st).2) := by
    rw [← H]
  obtain ⟨screen, hscr, hroot, hw, hh, hd, hpid, hcid, hbuf, hne1, hne2, hprops,
    hmem1, hmem2⟩ := inner_load_ok_inv Hp
  have lookup2 :
      (inner_load env m st).2.props screen.root (env.internCreate nameEsetrootPmapId) =
        some ⟨ATOM_PIXMAP, 32, u32Bytes (resourceId st.nextId)⟩ := by
    rw [hprops]
    unfold setProp
    rw [if_pos ⟨rfl, rfl⟩]
  have lookup1 :
      (inner_load env m st).2.props screen.root (env.internCreate nameXrootPmapId) =
        some ⟨ATOM_PIXMAP, 32, u32Bytes (resourceId st.nextId)⟩ := by
    rw [hprops]
    unfold setProp
    by_cases hxe : env.internCreate nameXrootPmapId = env.internCreate nameEsetrootPmapId
    · rw [if_pos ⟨rfl, hxe⟩]
    · rw [if_neg (fun hc => hxe hc.2), if_pos ⟨rfl, rfl⟩]
  have hr1 := resolve_atom_reads_pixmap env screen.root
    (env.internCreate nameXrootPmapId) (resourceId st.nextId) (inner_load env m st).2
    hne1 (Hr _ _) lookup1
  have hr2 := resolve_atom_reads_pixmap env screen.root
    (env.internCreate nameEsetrootPmapId) (resourceId st.nextId) (inner_load env m st).2
    hne2 (Hr _ _) lookup2
  have hmod : resourceId st.nextId % 4294967296 = resourceId st.nextId := by
    unfold resourceId
    omega
  rw [hmod] at hr1 hr2
  rw [hroot, hpid]
  exact ⟨lookup1, lookup2, hmem1, hmem2, hr1, hr2⟩

/-- Witness for C4 at the healthy server. -/
theorem C4_publish_both_atoms_witness :
    ((inner_load goodEnv OpenMethod.MakeNew st0).1 = Outcome.ok goodHandle) ∧
    ((inner_load goodEnv OpenMethod.MakeNew st0).2.props goodHandle.root
        (goodEnv.internCreate nameXrootPmapId) =
      some ⟨ATOM_PIXMAP, 32, u32Bytes (resourceId goodHandle.background_pixmap)⟩ ∧
    (inner_load goodEnv OpenMethod.MakeNew st0).2.props goodHandle.root
        (goodEnv.internCreate nameEsetrootPmapId) =
      some ⟨ATOM_PIXMAP, 32, u32Bytes (resourceId goodHandle.background_pixmap)⟩ ∧
    XEvent.changeProperty goodHandle.root (goodEnv.internCreate nameXrootPmapId)
      PropMode.Replace ATOM_PIXMAP (u32Bytes (resourceId goodHandle.background_pixmap)) ∈
        (inner_load goodEnv OpenMethod.MakeNew st0).2.events ∧
    XEvent.changeProperty goodHandle.root (goodEnv.internCreate nameEsetrootPmapId)
      PropMode.Replace ATOM_PIXMAP (u32Bytes (resourceId goodHandle.background_pixmap)) ∈
        (inner_load goodEnv OpenMethod.MakeNew st0).2.events ∧
    (resolve_atom goodEnv goodHandle.root (goodEnv.internCreate nameXrootPmapId)
      (inner_load goodEnv OpenMethod.MakeNew st0).2).1 =
        Outcome.ok (some (resourceId goodHandle.background_pixmap)) ∧
    (resolve_atom goodEnv goodHandle.root (goodEnv.internCreate nameEsetrootPmapId)
      (inner_load goodEnv OpenMethod.MakeNew st0).2).1 =
        Outcome.ok (some (resourceId goodHandle.background_pixmap))) :=
  ⟨by decide, C4_publish_both_atoms goodEnv OpenMethod.MakeNew st0 goodHandle
    (by decide) (fun _ _ => rfl)⟩

theorem killCount_append (l1 l2 : List XEvent) :
    killCount (l1 ++ l2) = killCount l1 + killCount l2 :=
  List.countP_append isKillClient l1 l2

theorem killCount_kill (x : Nat) : killCount [XEvent.killClient x] = 1 := rfl

theorem killCount_pushEvent_get (st : StX) (w a : Nat) :
    killCount (pushEvent st (XEvent.getProperty w a)).events = killCount st.events := by
  rw [pushEvent_events, killCount_append]
  rfl

/-- An accepted request: the success form of `voidRequest`. -/
theorem voidRequest_accepted {env : Env} {e : XEvent} (st : StX)
    (hk : env.reqOk e = true) :
    voidRequest env e st = (Outcome.ok (), pushEvent st e) := by
  unfold voidRequest
  dsimp only
  rw [hk, if_pos rfl]

/-- Number of termination requests the eviction table of the claim
prescribes for each pair of resolved pixmap ids. -/
def expectedKills : Option Nat → Option Nat → Nat
  | some x, some e => if x = e then 1 else 2
  | some _, none => 1
  | none, some _ => 1
  | none, none => 0

/-- C5: given the pixmap ids the two convention atoms resolve to,
`kill_pmap_atoms` succeeds (absence never errors) and issues exactly the
prescribed number of `KillClient` requests: zero when neither id is
present, one when exactly one is, one when both are present and equal
(deduplication), two when both are present and different. -/
theorem C5_eviction_counts (env : Env) (root a1 a2 : Nat)
    (st st1 stB : StX) (r1 r2 : Option Nat)
    (h1 : resolve_atom env root a1 st = (Outcome.ok r1, st1))
    (h2 : resolve_atom env root a2 st1 = (Outcome.ok r2, stB))
    (hk : ∀ n, env.reqOk (XEvent.killClient n) = true) :
    (kill_pmap_atoms env root a1 a2 st).1 = Outcome.ok () ∧
    killCount (kill_pmap_atoms env root a1 a2 st).2.events =
      killCount st.events + expectedKills r1 r2 := by
  have k1 : killCount st1.events = killCount st.events := by
    have hs := resolve_atom_state env root a1 st
    rw [h1] at hs
    dsimp only at hs
    rw [hs]
    split
    · rfl
    · exact killCount_pushEvent_get st root a1
  have k2 : killCount stB.events = killCount st1.events := by
    have hs := resolve_atom_state env root a2 st1
    rw [h2] at hs
    dsimp only at hs
    rw [hs]
    split
    · rfl
    · exact killCount_pushEvent_get st1 root a2
  unfold kill_pmap_atoms
  rw [h1]
  dsimp only [obind]
  rw [h2]
  dsimp only [obind]
  rcases r1 with _ | x <;> rcases r2 with _ | e <;> dsimp only [expectedKills]
  · exact ⟨rfl, by rw [k2, k1, Nat.add_zero]⟩
  · rw [voidRequest_accepted stB (hk e)]
    refine ⟨rfl, ?_⟩
    rw [pushEvent_events, killCount_append, k2, k1, killCount_kill]
  · rw [voidRequest_accepted stB (hk x)]
    refine ⟨rfl, ?_⟩
    rw [pushEvent_events, killCount_append, k2, k1, killCount_kill]
  · by_cases hxe : x = e
    · rw [if_pos hxe, voidRequest_accepted stB (hk x), if_pos hxe]
      refine ⟨rfl, ?_⟩
      rw [pushEvent_events, killCount_append, k2, k1, killCount_kill]
    · rw [if_neg hxe, voidRequest_accepted stB (hk x)]
      dsimp only [obind]
      rw [voidRequest_accepted _ (hk e), if_neg hxe]
      refine ⟨rfl, ?_⟩
      rw [pushEvent_events, killCount_append, pushEvent_events, killCount_append,
        k2, k1, killCount_kill, killCount_kill]

/-- The state after the first probe read in the eviction witness run. -/
def stExistingA : StX := ⟨[XEvent.getProperty 7 101], 1, propsExisting⟩

/-- The state after both probe reads in the eviction witness run. -/
def stExistingB : StX :=
  ⟨[XEvent.getProperty 7 101, XEvent.getProperty 7 102], 1, propsExisting⟩

/-- Witness for C5: both atoms resolve to the same owner 77, and exactly
one termination request is issued. -/
theorem C5_eviction_counts_witness :
    (resolve_atom goodEnv 7 101 stExisting = (Outcome.ok (some 77), stExistingA)) ∧
    (resolve_atom goodEnv 7 102 stExistingA = (Outcome.ok (some 77), stExistingB)) ∧
    (kill_pmap_atoms goodEnv 7 101 102 stExisting).1 = Outcome.ok () ∧
    killCount (kill_pmap_atoms goodEnv 7 101 102 stExisting).2.events =
      killCount stExisting.events + expectedKills (some 77) (some 77) :=
  ⟨rfl, rfl,
    C5_eviction_counts goodEnv 7 101 102 stExisting stExistingA stExistingB
      (some 77) (some 77) rfl rfl (fun _ => rfl)⟩

/-- Property store holding a format-16 value of eight bytes (four 16-bit
items) under atom 101 on window 7. -/
def propsFmt16Long : Nat → Nat → Option PropVal := fun w a =>
  if w = 7 ∧ a = 101 then some ⟨ATOM_PIXMAP, 16, [1, 0, 2, 0, 3, 0, 4, 0]⟩ else none

/-- Starting state for the long format-16 property. -/
def stFmt16Long : StX := ⟨[], 1, propsFmt16Long⟩

/-- C9 counterexample: the claim says a property value longer than 4
bytes in the 16-bit format makes `resolve_atom` panic.  The fetch asks
for one 32-bit unit (`long_length` 1), so the server truncates the value
to its first 4 bytes and the decode succeeds: an 8-byte format-16 value
yields a normal answer, not a panic. -/
theorem C9_counterexample :
    ((stFmt16Long.props 7 101).map PropVal.format = some 16) ∧
    ((stFmt16Long.props 7 101).map (fun p => p.bytes.length) = some 8) ∧
    (resolve_atom goodEnv 7 101 stFmt16Long).1 = Outcome.ok (some 131073) ∧
    ((resolve_atom goodEnv 7 101 stFmt16Long).1).isPanicked = false := by
  refine ⟨by decide, by decide, by decide, by decide⟩

/-- C9 amended: the 16- and 8-bit decode branches unwrap a conversion
requiring the fetched byte run to be exactly 4 bytes.  Since the fetch
requests a single 32-bit unit, at most 4 bytes arrive: a pixmap-typed
property shorter than 4 bytes in format 8, or in format 16 with its even
byte run shorter than 4, makes `resolve_atom` panic instead of returning
an error or None (while longer values are truncated to 4 bytes and
decode normally). -/
theorem C9_amended (env : Env) (w a : Nat) (st : StX) (p : PropVal)
    (hreq : env.reqOk (XEvent.getProperty w a) = true)
    (ha : a ≠ ATOM_NONE)
    (hp : st.props w a = some p)
    (hty : p.ty = ATOM_PIXMAP)
    (hfmt : p.format = 8 ∨ (p.format = 16 ∧ 2 ∣ p.bytes.length))
    (hshort : p.bytes.length < 4) :
    ((resolve_atom env w a st).1).isPanicked = true := by
  have htake : p.bytes.take 4 = p.bytes :=
    List.take_of_length_le (Nat.le_of_lt hshort)
  unfold resolve_atom
  rw [if_neg ha]
  dsimp only
  rw [hreq, hp]
  dsimp only
  rw [if_pos rfl]
  rw [if_neg (by rw [hty]; simp)]
  rcases hfmt with h8 | ⟨h16, hdvd⟩
  · rw [h8]
    dsimp only
    rw [htake, if_neg (by omega)]
    rfl
  · rw [h16]
    dsimp only
    rw [htake]
    rw [if_neg ?hlen]
    case hlen =>
      rw [List.length_take]
      omega
    rfl

/-- Property store with a single 16-bit item (two bytes) under atom 101. -/
def propsFmt16Short : Nat → Nat → Option PropVal := fun w a =>
  if w = 7 ∧ a = 101 then some ⟨ATOM_PIXMAP, 16, [1, 0]⟩ else none

/-- Starting state for the short format-16 property. -/
def stFmt16Short : StX := ⟨[], 1, propsFmt16Short⟩

/-- Witness for the C9 amended theorem: a two-byte format-16 pixmap
property makes `resolve_atom` panic. -/
theorem C9_amended_witness :
    (goodEnv.reqOk (XEvent.getProperty 7 101) = true ∧
      (101 : Nat) ≠ ATOM_NONE ∧
      stFmt16Short.props 7 101 = some ⟨ATOM_PIXMAP, 16, [1, 0]⟩ ∧
      ((2 : Nat) < 4)) ∧
    ((resolve_atom goodEnv 7 101 stFmt16Short).1).isPanicked = true :=
  ⟨⟨rfl, by decide, rfl, by decide⟩,
    C9_amended goodEnv 7 101 stFmt16Short ⟨ATOM_PIXMAP, 16, [1, 0]⟩
      rfl (by decide) rfl rfl (Or.inr ⟨rfl, by decide⟩) (by decide)⟩

/-- An accepted connection attempt. -/
theorem connectStep_accepted {env : Env} (st : StX) (hc : env.connectOk = true) :
    connectStep env st = (Outcome.ok (), pushEvent st XEvent.connect) := by
  unfold connectStep
  dsimp only
  rw [hc, if_pos rfl]

/-- An accepted probing `InternAtom` round trip. -/
theorem internProbe_accepted {env : Env} {n : String} (st : StX)
    (hk : env.reqOk (XEvent.internAtom n true) = true) :
    internRequest env n true st =
      (Outcome.ok (env.internExisting n), pushEvent st (XEvent.internAtom n true)) := by
  unfold internRequest
  dsimp only
  rw [hk, if_pos rfl]
  rfl

/-- An accepted creating `InternAtom` round trip. -/
theorem internCreate_accepted {env : Env} {n : String} (st : StX)
    (hk : env.reqOk (XEvent.internAtom n false) = true) :
    internRequest env n false st =
      (Outcome.ok (env.internCreate n), pushEvent st (XEvent.internAtom n false)) := by
  unfold internRequest
  dsimp only
  rw [hk, if_pos rfl]
  rfl

/-- Running `resolve_atom` on a window with no stored property answers None
(after the read round trip when the atom is real). -/
theorem resolve_atom_absent (env : Env) (w a : Nat) (st : StX)
    (hreq : env.reqOk (XEvent.getProperty w a) = true)
    (hnull : st.props w a = none) :
    resolve_atom env w a st =
      (Outcome.ok none,
        if a = ATOM_NONE then st else pushEvent st (XEvent.getProperty w a)) := by
  unfold resolve_atom
  by_cases ha : a = ATOM_NONE
  · rw [if_pos ha, if_pos ha]
  · rw [if_neg ha, if_neg ha]
    dsimp only
    rw [hreq, hnull]
    dsimp only
    rw [if_pos rfl, if_pos (by decide)]

/-- With no stored properties, eviction terminates nobody and succeeds;
the appended events are the probe reads only. -/
theorem kill_pmap_atoms_absent (env : Env) (root a1 a2 : Nat) (st : StX)
    (hreq : ∀ w a, env.reqOk (XEvent.getProperty w a) = true)
    (hnull : ∀ a, st.props root a = none) :
    kill_pmap_atoms env root a1 a2 st =
      (Outcome.ok (),
        ⟨st.events ++ ((if a1 = ATOM_NONE then [] else [XEvent.getProperty root a1]) ++
            (if a2 = ATOM_NONE then [] else [XEvent.getProperty root a2])),
          st.nextId, st.props⟩) := by
  unfold kill_pmap_atoms
  rw [resolve_atom_absent env root a1 st (hreq root a1) (hnull a1)]
  dsimp only [obind]
  by_cases h1 : a1 = ATOM_NONE
  · rw [if_pos h1, if_pos h1]
    rw [resolve_atom_absent env root a2 st (hreq root a2) (hnull a2)]
    dsimp only [obind]
    by_cases h2 : a2 = ATOM_NONE
    · rw [if_pos h2, if_pos h2]
      rw [List.nil_append, List.append_nil]
    · rw [if_neg h2, if_neg h2]
      rfl
  · rw [if_neg h1, if_neg h1]
    rw [resolve_atom_absent env root a2 (pushEvent st (XEvent.getProperty root a1))
      (hreq root a2) (hnull a2)]
    dsimp only [obind]
    by_cases h2 : a2 = ATOM_NONE
    · rw [if_pos h2, if_pos h2]
      rw [List.append_nil]
      rfl
    · rw [if_neg h2, if_neg h2]
      show (Outcome.ok (), pushEvent (pushEvent st (XEvent.getProperty root a1))
        (XEvent.getProperty root a2)) = _
      rw [pushEvent, pushEvent]
      dsimp only
      rw [List.append_assoc]

/-- A truncated probe read contributes no `ChangeProperty` request. -/
theorem probe_countCP (c : Prop) [Decidable c] (w a : Nat) :
    (if c then ([] : List XEvent) else [XEvent.getProperty w a]).countP
      isChangeProperty = 0 := by
  split <;> rfl

/-- C7: when the server lets every request through but refuses to create
one of the convention atoms (its creation-mode `InternAtom` answers the
none atom), the run re-resolves both atoms with `only_if_exists` off,
fails with the distinct `FailedRootAtomCreation` error, and writes no
property: the store is untouched and no `ChangeProperty` request was
issued. -/
theorem C7_atom_creation_failure (env : Env) (m : OpenMethod) (st : StX)
    (scr : Screen)
    (hconn : env.connectOk = true)
    (hscr : env.screens.get? env.screenNumber = some scr)
    (hreq : ∀ e, env.reqOk e = true)
    (hnull : ∀ a, st.props scr.root a = none)
    (hnone : env.internCreate nameXrootPmapId = ATOM_NONE ∨
      env.internCreate nameEsetrootPmapId = ATOM_NONE) :
    (inner_load env m st).1 = Outcome.err Err.FailedRootAtomCreation ∧
    (inner_load env m st).2.props = st.props ∧
    changePropCount (inner_load env m st).2.events = changePropCount st.events ∧
    XEvent.internAtom nameXrootPmapId false ∈ (inner_load env m st).2.events ∧
    XEvent.internAtom nameEsetrootPmapId false ∈ (inner_load env m st).2.events := by
  unfold inner_load
  rw [connectStep_accepted st hconn]
  dsimp only [obind]
  rw [hscr]
  dsimp only
  rw [voidRequest_accepted _ (hreq _)]
  dsimp only [obind]
  rw [voidRequest_accepted _ (hreq _)]
  dsimp only [obind]
  rw [internProbe_accepted _ (hreq _)]
  dsimp only [obind]
  rw [internProbe_accepted _ (hreq _)]
  dsimp only [obind]
  rw [kill_pmap_atoms_absent _ _ _ _ _ (fun w a => hreq _) ?hnl]
  case hnl => exact fun a => hnull a
  dsimp only [obind]
  rw [internCreate_accepted _ (hreq _)]
  dsimp only [obind]
  rw [internCreate_accepted _ (hreq _)]
  dsimp only [obind]
  rw [if_pos hnone]
  refine ⟨rfl, rfl, ?_, ?_, ?_⟩
  · simp [changePropCount, pushEvent, generateId, probe_countCP, isChangeProperty,
      List.countP_append, List.countP_cons]
  · simp [pushEvent, generateId]
  · simp [pushEvent, generateId]

/-- A server that accepts everything but refuses to register the first
convention atom: creating `_XROOTPMAP_ID` answers the none atom. -/
def refuseAtomEnv : Env :=
  { goodEnv with internCreate := fun n => if n = nameEsetrootPmapId then 102 else 0 }

/-- Witness for C7 at the atom-refusing server. -/
theorem C7_atom_creation_failure_witness :
    ((refuseAtomEnv.internCreate nameXrootPmapId = ATOM_NONE ∨
        refuseAtomEnv.internCreate nameEsetrootPmapId = ATOM_NONE) ∧
      refuseAtomEnv.connectOk = true ∧
      refuseAtomEnv.screens.get? refuseAtomEnv.screenNumber = some testScreen) ∧
    ((inner_load refuseAtomEnv OpenMethod.MakeNew st0).1 =
        Outcome.err Err.FailedRootAtomCreation ∧
      (inner_load refuseAtomEnv OpenMethod.MakeNew st0).2.props = st0.props ∧
      changePropCount (inner_load refuseAtomEnv OpenMethod.MakeNew st0).2.events =
        changePropCount st0.events ∧
      XEvent.internAtom nameXrootPmapId false ∈
        (inner_load refuseAtomEnv OpenMethod.MakeNew st0).2.events ∧
      XEvent.internAtom nameEsetrootPmapId false ∈
        (inner_load refuseAtomEnv OpenMethod.MakeNew st0).2.events) :=
  ⟨⟨Or.inl (by decide), rfl, by decide⟩,
    C7_atom_creation_failure refuseAtomEnv OpenMethod.MakeNew st0 testScreen rfl
      (by decide) (fun e => rfl) (fun a => rfl) (Or.inl (by decide))⟩

end Shade
